import Mathlib

/-!
Verification of the streaming client in alpaca_trade_api/stream2.py.

The file gives a shallow embedding of the module: the connection state of
the class _StreamConn becomes an explicit record, the network becomes a
script (a function from the attempt index to the outcome of that
websocket connect/handshake), and every awaited side effect is recorded
in an event trace.  The methods _connect, _consume_msg, _ensure_ws,
subscribe, unsubscribe, close, _cast, _dispatch and register are
translated one by one; the channel partition of StreamConn.subscribe is
translated as the function classify.  Python exceptions are modelled by
an Except result carried next to the post-state, so that side effects
performed before a raise are kept, as in Python.
-/

deriving instance DecidableEq for Except

namespace Stream2

/-- Python str.startswith computed on the character lists (the builtin
String.startsWith of Lean does not reduce in the kernel). -/
def strStartsWith (s p : String) : Bool := p.data.isPrefixOf s.data

/-- Outcome of one call of websockets.connect plus the auth handshake of
_StreamConn._connect, scripted by the environment: either the transport
fails with a websockets.WebSocketException (connect, send or recv), or a
single reply frame arrives whose data.status field is the given string. -/
inductive ConnectOutcome where
  | transportFail
  | reply (status : String)
deriving DecidableEq

/-- The Python exceptions that the module can raise or interact with. -/
inductive PyErr where
  /-- websockets.WebSocketException, the only class caught by the retry
  loop of _ensure_ws and by _consume_msg. -/
  | wsException
  /-- ValueError, raised by _connect on a non-authorized status reply. -/
  | valueError
  /-- ConnectionError with message Max Retries Exceeded, raised by the
  while-else of _ensure_ws. -/
  | connectionError
  /-- TypeError, raised by json.dumps when handed a Python set: a set is
  not JSON serializable. -/
  | typeError
  /-- an arbitrary exception escaping a caller-registered handler. -/
  | handlerError
deriving DecidableEq

/-- One observable awaited effect, recorded in order in the trace. -/
inductive Event where
  /-- a call of websockets.connect, i.e. one connection attempt. -/
  | connectAttempt
  /-- the authenticate request frame was sent. -/
  | sentAuth
  /-- _dispatch was entered for the given channel. -/
  | dispatched (channel : String)
  /-- a registered handler (identified by a number) was invoked. -/
  | handlerRun (h : Nat)
  /-- asyncio.ensure_future started the _consume_msg loop. -/
  | consumeStarted
  /-- close() cancelled the consume task. -/
  | taskCancelled
  /-- close() awaited ws.close() and cleared the socket field. -/
  | wsClosed
  /-- asyncio.sleep for the given number of seconds. -/
  | sleep (seconds : Nat)
  /-- a listen (subscribe) request frame was sent with these streams. -/
  | sentListen (streams : List String)
deriving DecidableEq

/-- One entry of the _handlers dict: the key is the source text of the
compiled pattern (re.compile caches, so equal sources give the same dict
key), accepts is the semantics of pat.match on a channel name, and
handler numbers the registered coroutine function. -/
structure HEntry where
  source : String
  accepts : String → Bool
  handler : Nat

/-- The mutable attributes of a _StreamConn instance.  _streams is a set
of channel names (kept as a duplicate-free list), _ws and _consume_task
are reduced to whether they are set, plus whether the consume task has
been cancelled. -/
structure ConnState where
  streams : List String
  handlers : List HEntry
  handlerSymbols : List (Nat × Option (List String))
  ws : Bool
  retries : Nat
  retryMax : Nat
  retryWait : Nat
  consumeTask : Bool
  consumeCancelled : Bool

/-- _StreamConn.__init__: empty subscriptions and handlers, no socket,
retry counter zero; retryMax and retryWait model APCA_RETRY_MAX and
APCA_RETRY_WAIT (both default 3). -/
def initConn (retryMax retryWait : Nat) : ConnState :=
  { streams := [], handlers := [], handlerSymbols := [], ws := false,
    retries := 0, retryMax := retryMax, retryWait := retryWait,
    consumeTask := false, consumeCancelled := false }

/-- A connection together with its effect trace and the number of
connection attempts made so far (the index into the network script). -/
structure World where
  conn : ConnState
  trace : List Event
  attempts : Nat

/-- Fresh world around a fresh connection. -/
def mkWorld (c : ConnState) : World := { conn := c, trace := [], attempts := 0 }

/-- _StreamConn._dispatch on one message: iterate the handler entries in
dict (insertion) order; for each whose pattern matches the channel,
invoke its handler.  The oracle ho says whether a given handler raises
when invoked; the result lists the handlers actually entered, in order,
and whether an exception escaped (the source has no try around the
awaited handler call, so the first raise ends the iteration). -/
def runDispatch (ho : Nat → Bool) : List HEntry → String → List Nat × Bool
  | [], _ => ([], false)
  | e :: rest, c =>
    if e.accepts c then
      if ho e.handler then ([e.handler], true)
      else
        let r := runDispatch ho rest c
        (e.handler :: r.1, r.2)
    else runDispatch ho rest c

/-- _StreamConn._connect: one websockets.connect, send the authenticate
frame, await one reply.  On transport failure a WebSocketException
escapes.  On a reply whose data.status is not authorized, a ValueError
escapes and no attribute has been touched.  Otherwise the retry counter
is reset, the socket attribute is set, the authorized event is
dispatched through the handler registry, and the consume loop task is
started. -/
def pyConnect (ho : Nat → Bool) (env : Nat → ConnectOutcome) (w : World) :
    Except PyErr Unit × World :=
  match env w.attempts with
  | .transportFail =>
      (.error .wsException,
        { w with attempts := w.attempts + 1,
                 trace := w.trace ++ [.connectAttempt] })
  | .reply status =>
      let w2 : World :=
        { w with attempts := w.attempts + 1,
                 trace := w.trace ++ [.connectAttempt, .sentAuth] }
      if status = "authorized" then
        let s1 := { w2.conn with retries := 0, ws := true }
        let dr := runDispatch ho s1.handlers "authorized"
        let w3 :=
          { w2 with conn := s1,
                    trace := w2.trace ++ [.dispatched "authorized"]
                             ++ dr.1.map Event.handlerRun }
        if dr.2 then (.error .handlerError, w3)
        else
          (.ok (),
            { w3 with conn := { s1 with consumeTask := true,
                                        consumeCancelled := false },
                      trace := w3.trace ++ [.consumeStarted] })
      else (.error .valueError, w2)

/-- _StreamConn.close: cancel the consume task if one exists, then close
and clear the socket if set.  Nothing else is touched. -/
def close (w : World) : World :=
  let s := w.conn
  let s1 := if s.consumeTask then { s with consumeCancelled := true } else s
  let t1 := w.trace ++ (if s.consumeTask then [Event.taskCancelled] else [])
  if s1.ws then
    { conn := { s1 with ws := false }, trace := t1 ++ [.wsClosed],
      attempts := w.attempts }
  else { conn := s1, trace := t1, attempts := w.attempts }

/-- Python set union for _streams (kept duplicate-free; order of the
underlying list is irrelevant to every property stated below). -/
def setUnion (s cs : List String) : List String :=
  s ++ (cs.filter (fun c => !(s.contains c))).dedup

/-- The channels argument of subscribe as Python sees it: callers pass a
list, while the resubscribe inside _ensure_ws passes the _streams set
itself. -/
inductive PyChannels where
  | pylist (cs : List String)
  | pyset (cs : List String)
deriving DecidableEq

/-- The elements of the channels argument. -/
def PyChannels.elems : PyChannels → List String
  | .pylist cs => cs
  | .pyset cs => cs

/-- json.dumps applied to the listen frame: a list of strings serializes
to the streams field of the frame, while a Python set raises TypeError
(a set is not JSON serializable). -/
def serializeChannels : PyChannels → Except PyErr (List String)
  | .pylist cs => .ok cs
  | .pyset _ => .error .typeError

/-- The resubscribe call of _ensure_ws, namely subscribe(self._streams):
the leading _ensure_ws of that inner subscribe returns at once because
_ws was just set by _connect, so the body reduces to the length guard,
the (identity) set union, json.dumps on the set, and the send.  The
lemma subscribe_pyset below checks this against the full subscribe. -/
def resubscribe (w : World) : Except PyErr Unit × World :=
  if (PyChannels.pyset w.conn.streams).elems.length > 0 then
    let s1 := { w.conn with
                streams := setUnion w.conn.streams w.conn.streams }
    match serializeChannels (.pyset w.conn.streams) with
    | .ok cs => (.ok (), { w with conn := s1,
                                  trace := w.trace ++ [.sentListen cs] })
    | .error e => (.error e, { w with conn := s1 })
  else (.ok (), w)

/-- The while loop of _StreamConn._ensure_ws.  The gas argument encodes
the guard: it is kept equal to retryMax + 1 - retries along every call
(pyConnect leaves retries and retryMax unchanged whenever it fails, and
the recursive call decrements gas exactly when it increments retries),
so gas = 0 exactly when the while condition retries <= retryMax is
false, which is the while-else raising ConnectionError.  The try block
covers the connect and the resubscribe; only a WebSocketException is
caught, clearing _ws, incrementing _retries and sleeping
retry_wait * retry seconds (the source multiplies by the attribute
_retry, the maximum, not by the counter _retries); every other
exception escapes _ensure_ws at once. -/
def ensureWsGo (ho : Nat → Bool) (env : Nat → ConnectOutcome) :
    Nat → World → Except PyErr Unit × World
  | 0, w => (.error .connectionError, w)
  | gas + 1, w =>
    match pyConnect ho env w with
    | (.ok _, w1) =>
        if w1.conn.streams.length > 0 then resubscribe w1 else (.ok (), w1)
    | (.error .wsException, w1) =>
        ensureWsGo ho env gas
          { w1 with
              conn := { w1.conn with ws := false,
                                     retries := w1.conn.retries + 1 },
              trace := w1.trace
                       ++ [.sleep (w1.conn.retryWait * w1.conn.retryMax)] }
    | (.error e, w1) => (.error e, w1)

/-- _StreamConn._ensure_ws: return at once when _ws is set, otherwise
run the retry loop. -/
def ensureWs (ho : Nat → Bool) (env : Nat → ConnectOutcome) (w : World) :
    Except PyErr Unit × World :=
  if w.conn.ws then (.ok (), w)
  else ensureWsGo ho env (w.conn.retryMax + 1 - w.conn.retries) w

/-- _StreamConn.subscribe(channels): no-op on an empty argument;
otherwise ensure the connection, union the channels into _streams, then
json.dumps the listen frame (whose streams field is the channels
argument itself) and send it. -/
def subscribe (ho : Nat → Bool) (env : Nat → ConnectOutcome)
    (channels : PyChannels) (w : World) : Except PyErr Unit × World :=
  if channels.elems.length > 0 then
    match ensureWs ho env w with
    | (.ok _, w1) =>
        let s1 := { w1.conn with
                    streams := setUnion w1.conn.streams channels.elems }
        match serializeChannels channels with
        | .ok cs => (.ok (), { w1 with conn := s1,
                                       trace := w1.trace ++ [.sentListen cs] })
        | .error e => (.error e, { w1 with conn := s1 })
    | r => r
  else (.ok (), w)

/-- _StreamConn.unsubscribe(channels): the body is pass. -/
def unsubscribe (_channels : PyChannels) (w : World) :
    Except PyErr Unit × World :=
  (.ok (), w)

/-- The except branch of _StreamConn._consume_msg on a transport failure
of the receive loop: close local state, then the scheduled _ensure_ws
task runs (cancellation of the consume task is modelled as a flag, so
the except block runs to completion cooperatively); its result is the
outcome of the background reconnect task. -/
def consumeTransportFail (ho : Nat → Bool) (env : Nat → ConnectOutcome)
    (w : World) : Except PyErr Unit × World :=
  ensureWs ho env (close w)

/-- _StreamConn.register on the _handlers dict: updating an existing key
keeps its position and replaces the value, a new key is appended.  The
source also checks that the handler is a coroutine function (the
handler type makes that hold by construction) and records the symbol
filter in _handler_symbols, which _dispatch never reads in this
module. -/
def registerH (hs : List HEntry) (e : HEntry) : List HEntry :=
  if hs.any (fun x => x.source = e.source) then
    hs.map (fun x => if x.source = e.source then e else x)
  else hs ++ [e]

/-- A sequence of register calls against an initially empty dict. -/
def registerAll (regs : List HEntry) : List HEntry :=
  regs.foldl registerH []

/-- Modelled from the spec: the field tables trade_mapping, quote_mapping
and agg_mapping live in alpaca_trade_api.polygon.entity, which is not
part of this source tree.  Per the spec, raw trade keys include the
price key p and the size key s, renamed to named Trade fields. -/
def trade_mapping : List (String × String) :=
  [("p", "price"), ("s", "size")]

/-- Modelled from the spec: raw quote keys, renamed to Quote fields. -/
def quote_mapping : List (String × String) :=
  [("p", "bidprice"), ("s", "bidsize")]

/-- Modelled from the spec: raw aggregate keys, renamed to Agg fields. -/
def agg_mapping : List (String × String) :=
  [("o", "open"), ("c", "close")]

/-- The dict comprehension of _cast: keep only the raw keys present in
the field table, renamed through it, in message order. -/
def mapFields {V : Type} (mapping : List (String × String))
    (msg : List (String × V)) : List (String × V) :=
  msg.filterMap (fun kv => (mapping.lookup kv.1).map (fun t => (t, kv.2)))

/-- The typed record produced by _cast. -/
inductive EntityMsg (V : Type) where
  | account (raw : List (String × V))
  | trade (fields : List (String × V))
  | quote (fields : List (String × V))
  | agg (fields : List (String × V))
  | generic (raw : List (String × V))
deriving DecidableEq

/-- _StreamConn._cast: account_updates keeps the raw body; channels with
prefix T., Q., A. or AM. are filtered and renamed through the matching
field table; anything else is wrapped raw as a generic Entity. -/
def castMsg {V : Type} (channel : String) (msg : List (String × V)) :
    EntityMsg V :=
  if channel = "account_updates" then .account msg
  else if strStartsWith channel "T." then .trade (mapFields trade_mapping msg)
  else if strStartsWith channel "Q." then .quote (mapFields quote_mapping msg)
  else if strStartsWith channel "A." || strStartsWith channel "AM." then
    .agg (mapFields agg_mapping msg)
  else .generic msg

/-- The three logical destinations of StreamConn.subscribe. -/
inductive Dest where
  | polygonFeed
  | tradingWs
  | dataWs
deriving DecidableEq

/-- The per-channel partition decision of StreamConn.subscribe: prefix
Q., T., A. or AM. goes to the polygon feed, the exact names
trade_updates and account_updates go to the trading connection, and
everything else goes to the data connection. -/
def classify (c : String) : Dest :=
  if strStartsWith c "Q." || strStartsWith c "T."
      || strStartsWith c "A." || strStartsWith c "AM." then .polygonFeed
  else if c = "trade_updates" || c = "account_updates" then .tradingWs
  else .dataWs

/-- The sleep durations appearing in a trace, in order. -/
def sleepsOf (t : List Event) : List Nat :=
  t.filterMap (fun e => match e with | .sleep n => some n | _ => none)

/-- The number of connection attempts appearing in a trace. -/
def attemptCount (t : List Event) : Nat :=
  (t.filter (fun e => match e with | .connectAttempt => true | _ => false)).length

/-- The streams fields of the listen frames sent in a trace, in order. -/
def listensOf (t : List Event) : List (List String) :=
  t.filterMap (fun e => match e with | .sentListen cs => some cs | _ => none)

/-- Handler oracle with no raising handler. -/
def hoNone : Nat → Bool := fun _ => false

/-- Network script: every connection attempt fails at transport level. -/
def envAllFail : Nat → ConnectOutcome := fun _ => .transportFail

/-- Network script: every handshake succeeds with status authorized. -/
def envAllAuth : Nat → ConnectOutcome := fun _ => .reply "authorized"

/-- Network script: every handshake answers with a denied status. -/
def envDenied : Nat → ConnectOutcome := fun _ => .reply "denied"

/-- Fresh connection with the default retry configuration
retry-max = 3, base-wait-seconds = 3. -/
def w0 : World := mkWorld (initConn 3 3)

/-- The scenario behind claims about reconnection: a caller subscribes to
X and Y over a network that always authorizes, then the receive loop
hits a transport failure and the self-healing reconnect runs. -/
def reconnectScenario : Except PyErr Unit × World :=
  match subscribe hoNone envAllAuth (.pylist ["X", "Y"]) w0 with
  | (.ok _, w) => consumeTransportFail hoNone envAllAuth w
  | r => r

/-- The subscribe, unsubscribe, forced-reconnect round trip on channels
X and Y. -/
def unsubscribeScenario : Except PyErr Unit × World :=
  match subscribe hoNone envAllAuth (.pylist ["X", "Y"]) w0 with
  | (.ok _, w1) =>
    match unsubscribe (.pylist ["X", "Y"]) w1 with
    | (.ok _, w2) => consumeTransportFail hoNone envAllAuth w2
    | r => r
  | r => r

/-- Unfolding of the auth-rejection path of _connect: on a reply whose
status is not authorized, a ValueError escapes and the connection state
is exactly the entry state; only the attempt and the sent auth frame
are added to the trace. -/
theorem pyConnect_auth_fail (ho : Nat → Bool) (env : Nat → ConnectOutcome)
    (w : World) (status : String)
    (henv : env w.attempts = .reply status) (hst : status ≠ "authorized") :
    pyConnect ho env w =
      (.error .valueError,
        { w with attempts := w.attempts + 1,
                 trace := w.trace ++ [.connectAttempt, .sentAuth] }) := by
  unfold pyConnect
  rw [henv]
  simp [hst]

/-- With no raising handler, _dispatch invokes exactly the handlers of
the matching patterns, in registry order, and no exception escapes. -/
theorem runDispatch_noFail (hs : List HEntry) (c : String) :
    runDispatch hoNone hs c =
      ((hs.filter (fun e => e.accepts c)).map (fun e => e.handler), false) := by
  induction hs with
  | nil => rfl
  | cons e rest ih =>
    by_cases h : e.accepts c = true
    · simp [runDispatch, hoNone, h, List.filter_cons, ih]
    · simp [runDispatch, hoNone, h, List.filter_cons, ih]

/-- Folding register over entries whose sources are fresh and pairwise
distinct appends them in call order. -/
theorem foldl_registerH_fresh (regs : List HEntry) :
    ∀ acc : List HEntry,
    regs.Pairwise (fun a b => a.source ≠ b.source) →
    (∀ e ∈ regs, ∀ a ∈ acc, a.source ≠ e.source) →
    regs.foldl registerH acc = acc ++ regs := by
  induction regs with
  | nil => intro acc _ _; simp
  | cons e rest ih =>
    intro acc hd hnew
    have hnone : acc.any (fun x => x.source = e.source) = false := by
      rw [List.any_eq_false]
      intro x hx
      simpa using hnew e (by simp) x hx
    have hstep : registerH acc e = acc ++ [e] := by
      rw [registerH, hnone]
      simp
    rw [List.foldl_cons, hstep,
        ih (acc ++ [e]) (List.Pairwise.sublist (by simp) hd) ?_]
    · simp
    · intro x hx a ha
      rcases List.mem_append.mp ha with ha | ha
      · exact hnew x (by simp [hx]) a ha
      · have : a = e := by simpa using ha
        subst this
        exact (List.pairwise_cons.mp hd).1 x hx

/-- A pairwise-fresh sequence of register calls builds the handler dict
in registration order. -/
theorem registerAll_of_distinct (regs : List HEntry)
    (hd : regs.Pairwise (fun a b => a.source ≠ b.source)) :
    registerAll regs = regs := by
  unfold registerAll
  simpa using foldl_registerH_fresh regs [] hd (by simp)

/-- Honesty check for the resubscribe shortcut: when the socket is set,
the full subscribe applied to the _streams set equals resubscribe. -/
theorem subscribe_pyset (ho : Nat → Bool) (env : Nat → ConnectOutcome)
    (w : World) (hws : w.conn.ws = true) :
    subscribe ho env (.pyset w.conn.streams) w = resubscribe w := by
  unfold subscribe resubscribe ensureWs
  simp [hws, PyChannels.elems, serializeChannels]

/-- Reduction of one loop iteration of _ensure_ws when the connect
attempt fails with an exception that is not a WebSocketException: the
except clause does not match, so the exception escapes the loop with
the state left by the attempt. -/
theorem ensureWsGo_uncaught (ho : Nat → Bool) (env : Nat → ConnectOutcome)
    (gas : Nat) (w w1 : World) (e : PyErr) (he : e ≠ PyErr.wsException)
    (hpc : pyConnect ho env w = (.error e, w1)) :
    ensureWsGo ho env (gas + 1) w = (.error e, w1) := by
  unfold ensureWsGo
  rw [hpc]
  cases e <;> simp_all

/-- C1, counterexample: with retry-max = 3 and base-wait-seconds = 3 and
every connection attempt failing, _ensure_ws does perform 4 attempts and
raise ConnectionError, but the sleeps between attempts are the constant
retry_wait * retry_max = 9 seconds each (the source multiplies by the
maximum, not by the attempt number), so the claimed sleep sequence
3, 6, 9 is wrong. -/
theorem c1_counterexample :
    sleepsOf (ensureWs hoNone envAllFail w0).2.trace = [9, 9, 9, 9] ∧
    sleepsOf (ensureWs hoNone envAllFail w0).2.trace ≠ [3, 6, 9] ∧
    attemptCount (ensureWs hoNone envAllFail w0).2.trace = 4 ∧
    (ensureWs hoNone envAllFail w0).1 = .error .connectionError := by
  decide

/-- C1, amended: with retry-max = 3 and base-wait-seconds = 3 and every
connection attempt failing, _ensure_ws performs exactly 4 connection
attempts, sleeps 9 seconds (retry_wait times retry_max) after every
failed attempt including the last, and then raises ConnectionError
(Max Retries Exceeded). -/
theorem c1_constant_backoff :
    (ensureWs hoNone envAllFail w0).1 = .error .connectionError ∧
    (ensureWs hoNone envAllFail w0).2.trace =
      [.connectAttempt, .sleep 9, .connectAttempt, .sleep 9,
       .connectAttempt, .sleep 9, .connectAttempt, .sleep 9] ∧
    (ensureWs hoNone envAllFail w0).2.attempts = 4 := by
  decide

/-- C2, code bug: after subscribe on X and Y, a transport failure of the
receive loop and a successful reconnect, the persisted subscription set
does survive the close (streams is still X, Y), and the reconnect does
reach the resubscribe call, but the resubscribe frame is never sent:
json.dumps raises TypeError on the _streams set that _ensure_ws passes
to subscribe, the TypeError escapes the background reconnect task, and
the only listen frame ever sent is the initial one.  The trace shows
two successful handshakes (two dispatched authorized events via two
connect attempts) yet a single listen frame. -/
theorem c2_resubscribe_frame_lost :
    reconnectScenario.1 = .error .typeError ∧
    reconnectScenario.2.conn.streams = ["X", "Y"] ∧
    listensOf reconnectScenario.2.trace = [["X", "Y"]] ∧
    attemptCount reconnectScenario.2.trace = 2 := by
  decide

/-- C3: whenever the single auth reply carries a status other than
authorized, _connect raises ValueError and the connection never enters
the authorized state: every attribute (socket, retry counter, consume
task, streams, handlers) is exactly as before the call, and the trace
gains only the attempt and the sent auth frame, so no authorized event
is dispatched and no receive loop is started. -/
theorem c3_auth_reject (ho : Nat → Bool) (env : Nat → ConnectOutcome)
    (w : World) (status : String)
    (henv : env w.attempts = .reply status) (hst : status ≠ "authorized") :
    pyConnect ho env w =
      (.error .valueError,
        { w with attempts := w.attempts + 1,
                 trace := w.trace ++ [.connectAttempt, .sentAuth] }) :=
  pyConnect_auth_fail ho env w status henv hst

/-- C3, witness at a concrete denied reply on a fresh connection. -/
theorem c3_witness :
    envDenied w0.attempts = .reply "denied" ∧ "denied" ≠ "authorized" ∧
    pyConnect hoNone envDenied w0 =
      (.error .valueError,
        { w0 with attempts := w0.attempts + 1,
                  trace := w0.trace ++ [.connectAttempt, .sentAuth] }) :=
  ⟨rfl, by decide, c3_auth_reject hoNone envDenied w0 "denied" rfl (by decide)⟩

/-- C4, counterexample: when the first connect attempt inside _ensure_ws
fails with the auth ValueError, the error propagates out of _ensure_ws
at once with the retry budget untouched (retries still 0 of 3), only
one attempt made and no backoff sleep, contradicting the claim that it
consumes one retry and the loop proceeds. -/
theorem c4_counterexample :
    (ensureWs hoNone envDenied w0).1 = .error .valueError ∧
    (ensureWs hoNone envDenied w0).2.conn.retries = 0 ∧
    (ensureWs hoNone envDenied w0).2.attempts = 1 ∧
    sleepsOf (ensureWs hoNone envDenied w0).2.trace = [] ∧
    w0.conn.retries < w0.conn.retryMax := by
  decide

/-- C4, amended: an auth failure (ValueError) of a connect attempt made
inside the reconnect loop is not caught by the loop, which catches only
WebSocketException: the error propagates out of _ensure_ws immediately,
consumes no retry budget, and triggers no backoff wait. -/
theorem c4_auth_error_escapes_loop (ho : Nat → Bool)
    (env : Nat → ConnectOutcome) (w : World) (status : String)
    (hws : w.conn.ws = false) (hr : w.conn.retries ≤ w.conn.retryMax)
    (henv : env w.attempts = .reply status) (hst : status ≠ "authorized") :
    ensureWs ho env w =
      (.error .valueError,
        { w with attempts := w.attempts + 1,
                 trace := w.trace ++ [.connectAttempt, .sentAuth] }) := by
  obtain ⟨g, hg⟩ : ∃ g, w.conn.retryMax + 1 - w.conn.retries = g + 1 :=
    ⟨w.conn.retryMax - w.conn.retries, by omega⟩
  unfold ensureWs
  rw [hws]
  simp only [Bool.false_eq_true, if_false, hg]
  exact ensureWsGo_uncaught ho env g w _ PyErr.valueError (by simp)
    (pyConnect_auth_fail ho env w status henv hst)

/-- C4, witness of the amended statement at a concrete denied reply. -/
theorem c4_witness :
    w0.conn.ws = false ∧ w0.conn.retries ≤ w0.conn.retryMax ∧
    envDenied w0.attempts = .reply "denied" ∧ "denied" ≠ "authorized" ∧
    ensureWs hoNone envDenied w0 =
      (.error .valueError,
        { w0 with attempts := w0.attempts + 1,
                  trace := w0.trace ++ [.connectAttempt, .sentAuth] }) :=
  ⟨rfl, by decide, rfl, by decide,
    c4_auth_error_escapes_loop hoNone envDenied w0 "denied" rfl (by decide)
      rfl (by decide)⟩

/-- Handler registry for the C5 counterexample: both patterns match the
channel T.AAPL; handler 1 raises when invoked, handler 2 does not. -/
def c5Handlers : List HEntry :=
  [⟨"T\\..*", fun c => strStartsWith c "T.", 1⟩,
   ⟨"T\\.AAPL", fun c => strStartsWith c "T.AAPL", 2⟩]

/-- Handler oracle for C5: exactly handler 1 raises. -/
def c5Oracle : Nat → Bool := fun h => h == 1

/-- C5, counterexample: both registered patterns match T.AAPL, the first
matched handler raises, and the second matched handler is never invoked
for that message: _dispatch has no try around the awaited handler call,
so one handler failure aborts the fan-out. -/
theorem c5_counterexample :
    c5Handlers.map (fun e => e.accepts "T.AAPL") = [true, true] ∧
    runDispatch c5Oracle c5Handlers "T.AAPL" = ([1], true) ∧
    2 ∉ (runDispatch c5Oracle c5Handlers "T.AAPL").1 := by
  decide

/-- C5, amended: an exception raised by a matched handler aborts the
dispatch of that message: the handlers invoked are exactly the matching
entries registered before the failing one, then the failing one, and
the exception escapes, so entries registered after it are not invoked
even when their patterns match. -/
theorem c5_failure_aborts_dispatch (ho : Nat → Bool)
    (pre post : List HEntry) (e : HEntry) (c : String)
    (hpre : ∀ x ∈ pre, x.accepts c = true → ho x.handler = false)
    (hacc : e.accepts c = true) (hfail : ho e.handler = true) :
    runDispatch ho (pre ++ e :: post) c =
      ((pre.filter (fun x => x.accepts c)).map (fun x => x.handler)
        ++ [e.handler], true) := by
  induction pre with
  | nil => simp [runDispatch, hacc, hfail]
  | cons x rest ih =>
    have ihr := ih (fun y hy => hpre y (by simp [hy]))
    by_cases hx : x.accepts c = true
    · have hxo : ho x.handler = false := hpre x (by simp) hx
      simp [runDispatch, hx, hxo, List.filter_cons, ihr]
    · simp [runDispatch, hx, List.filter_cons, ihr]

/-- Entries for the C5 witness: a matching well-behaved handler, then a
matching raising handler, then a matching handler that the abort
skips. -/
def c5Pre : List HEntry := [⟨"T\\..*", fun c => strStartsWith c "T.", 3⟩]

/-- The raising entry of the C5 witness. -/
def c5Fail : HEntry := ⟨"T\\.A.*", fun c => strStartsWith c "T.A", 1⟩

/-- The entries registered after the raising one in the C5 witness. -/
def c5Post : List HEntry :=
  [⟨"T\\.AAPL", fun c => strStartsWith c "T.AAPL", 2⟩]

/-- C5, witness of the amended statement on concrete handlers: handler 3
runs, handler 1 raises, handler 2 is skipped. -/
theorem c5_witness :
    (∀ x ∈ c5Pre, x.accepts "T.AAPL" = true → c5Oracle x.handler = false) ∧
    c5Fail.accepts "T.AAPL" = true ∧ c5Oracle c5Fail.handler = true ∧
    runDispatch c5Oracle (c5Pre ++ c5Fail :: c5Post) "T.AAPL" =
      ([3, 1], true) :=
  ⟨by decide, by decide, by decide, by
    have h := c5_failure_aborts_dispatch c5Oracle c5Pre c5Post c5Fail "T.AAPL"
      (by decide) (by decide) (by decide)
    simpa using h⟩

/-- C6: unsubscribe is the literal no-op pass, so it returns ok on every
channels argument in every state and removes nothing from the persisted
subscription set; in the subscribe, unsubscribe, forced-reconnect round
trip the set still holds X and Y at the resubscribe call, but the
resubscribe frame itself is never sent because json.dumps raises
TypeError on the _streams set (the only listen frame in the trace is
the initial one), so the round trip does not re-send the channels. -/
theorem c6_unsubscribe_noop :
    (∀ (cs : PyChannels) (w : World), unsubscribe cs w = (.ok (), w)) ∧
    unsubscribeScenario.2.conn.streams = ["X", "Y"] ∧
    listensOf unsubscribeScenario.2.trace = [["X", "Y"]] ∧
    unsubscribeScenario.1 = .error .typeError :=
  ⟨fun _ _ => rfl, by decide, by decide, by decide⟩

/-- C7: when no handler raises, a dict built by register calls with
pairwise distinct pattern sources dispatches one message to exactly the
handlers whose patterns match the channel, each invoked once, in
registration order (the filtered registration list), and this is a full
fan-out, not first-match-wins. -/
theorem c7_all_matches_in_registration_order (regs : List HEntry)
    (c : String) (hd : regs.Pairwise (fun a b => a.source ≠ b.source)) :
    runDispatch hoNone (registerAll regs) c =
      ((regs.filter (fun e => e.accepts c)).map (fun e => e.handler),
        false) := by
  rw [registerAll_of_distinct regs hd, runDispatch_noFail]

/-- First registered pattern of the C7 witness, matching every channel
with prefix T. -/
def c7A : HEntry := ⟨"T\\..*", fun c => strStartsWith c "T.", 1⟩

/-- Second registered pattern of the C7 witness, matching channels with
prefix T.AAPL. -/
def c7B : HEntry := ⟨"T\\.AAPL", fun c => strStartsWith c "T.AAPL", 2⟩

/-- C7, witness: two overlapping patterns both matching T.AAPL are both
invoked for one message, in registration order. -/
theorem c7_witness :
    ([c7A, c7B] : List HEntry).Pairwise (fun a b => a.source ≠ b.source) ∧
    runDispatch hoNone (registerAll [c7A, c7B]) "T.AAPL" =
      (([c7A, c7B].filter (fun e => e.accepts "T.AAPL")).map
          (fun e => e.handler), false) ∧
    runDispatch hoNone (registerAll [c7A, c7B]) "T.AAPL" = ([1, 2], false) :=
  ⟨by decide,
    c7_all_matches_in_registration_order [c7A, c7B] "T.AAPL" (by decide),
    by decide⟩

/-- C8: casting a frame on a channel with prefix T. produces a Trade
record holding exactly the renamed values of those raw keys that appear
in the trade field table: a pair is a field of the record exactly when
some raw key of the body maps to its name and carries its value, so raw
keys absent from the table are dropped without error and declared
fields with no corresponding raw key are left unset. -/
theorem c8_trade_cast (V : Type) (channel : String)
    (msg : List (String × V)) (hch : strStartsWith channel "T." = true) :
    castMsg channel msg = .trade (mapFields trade_mapping msg) ∧
    ∀ (tk : String) (v : V),
      (tk, v) ∈ mapFields trade_mapping msg ↔
        ∃ rk, (rk, v) ∈ msg ∧ trade_mapping.lookup rk = some tk := by
  constructor
  · have hne : channel ≠ "account_updates" := by
      intro h
      rw [h] at hch
      exact absurd hch (by decide)
    simp [castMsg, hne, hch]
  · intro tk v
    constructor
    · intro hmem
      simp only [mapFields, List.mem_filterMap] at hmem
      obtain ⟨kv, hin, heq⟩ := hmem
      rcases Option.map_eq_some'.mp heq with ⟨t, hl, hpair⟩
      cases hpair
      exact ⟨kv.1, by simpa using hin, hl⟩
    · rintro ⟨rk, hin, hl⟩
      simp only [mapFields, List.mem_filterMap]
      exact ⟨(rk, v), hin, by simp [hl]⟩

/-- Body for the C8 witness: raw price and size keys plus an unknown
key zz. -/
def c8msg : List (String × Nat) := [("p", 100), ("s", 10), ("zz", 7)]

/-- C8, witness: the concrete trade body maps to exactly the renamed
price and size fields; the unknown key zz is dropped. -/
theorem c8_witness :
    strStartsWith "T.AAPL" "T." = true ∧
    (castMsg "T.AAPL" c8msg = .trade (mapFields trade_mapping c8msg) ∧
      ∀ (tk : String) (v : Nat),
        (tk, v) ∈ mapFields trade_mapping c8msg ↔
          ∃ rk, (rk, v) ∈ c8msg ∧ trade_mapping.lookup rk = some tk) ∧
    mapFields trade_mapping c8msg = [("price", 100), ("size", 10)] :=
  ⟨by decide, c8_trade_cast Nat "T.AAPL" c8msg (by decide), by decide⟩

/-- C9: the channel partition of StreamConn.subscribe is a total
deterministic function on strings into the three destinations: prefix
Q., T., A. or AM. goes to the polygon feed, the exact names
trade_updates and account_updates go to the trading connection, and
every other string goes to the data connection. -/
theorem c9_classifier_total (c : String) :
    (classify c = .polygonFeed ∨ classify c = .tradingWs ∨
      classify c = .dataWs) ∧
    ((strStartsWith c "Q." = true ∨ strStartsWith c "T." = true ∨
      strStartsWith c "A." = true ∨ strStartsWith c "AM." = true) →
        classify c = .polygonFeed) ∧
    ((c = "trade_updates" ∨ c = "account_updates") →
        classify c = .tradingWs) ∧
    ((strStartsWith c "Q." = false ∧ strStartsWith c "T." = false ∧
      strStartsWith c "A." = false ∧ strStartsWith c "AM." = false ∧
      c ≠ "trade_updates" ∧ c ≠ "account_updates") →
        classify c = .dataWs) := by
  refine ⟨?_, ?_, ?_, ?_⟩
  · unfold classify
    split
    · exact Or.inl rfl
    · split
      · exact Or.inr (Or.inl rfl)
      · exact Or.inr (Or.inr rfl)
  · intro h
    rcases h with h | h | h | h <;> simp [classify, h]
  · intro h
    rcases h with h | h <;> subst h <;> decide
  · intro h
    simp [classify, h.1, h.2.1, h.2.2.1, h.2.2.2.1, h.2.2.2.2.1,
      h.2.2.2.2.2]

/-- C9, witness: prefix channel T.AAPL goes to the polygon feed,
trade_updates goes to the trading connection, and an unprefixed name
goes to the data connection. -/
theorem c9_witness :
    (strStartsWith "T.AAPL" "Q." = true ∨
      strStartsWith "T.AAPL" "T." = true ∨
      strStartsWith "T.AAPL" "A." = true ∨
      strStartsWith "T.AAPL" "AM." = true) ∧
    classify "T.AAPL" = .polygonFeed ∧
    classify "trade_updates" = .tradingWs ∧
    classify "hello" = .dataWs :=
  ⟨by decide, (c9_classifier_total "T.AAPL").2.1 (by decide),
    (c9_classifier_total "trade_updates").2.2.1 (by decide),
    (c9_classifier_total "hello").2.2.2 (by decide)⟩

/-- C10: close touches only the consume task and the socket: for every
state, the subscription set, the handler dict, the symbol-filter dict,
the retry counter and the retry configuration are exactly as before the
call. -/
theorem c10_close_preserves_registry (w : World) :
    (close w).conn.streams = w.conn.streams ∧
    (close w).conn.handlers = w.conn.handlers ∧
    (close w).conn.handlerSymbols = w.conn.handlerSymbols ∧
    (close w).conn.retries = w.conn.retries ∧
    (close w).conn.retryMax = w.conn.retryMax ∧
    (close w).conn.retryWait = w.conn.retryWait := by
  unfold close
  by_cases h1 : w.conn.consumeTask = true <;>
    by_cases h2 : w.conn.ws = true <;> simp [h1, h2]

end Stream2
